import Mathlib

/-
Shallow embedding of the batch video-transcription pipeline:
- `src/docker/app/main.py` (job driver, idempotency gate, per-task pipeline)
- `src/transcription_client/s3_batch.py` (S3BatchManager: job status, key layout)

External effects (yt-dlp, ffmpeg, the transcription engine, S3 network calls)
are modelled by explicit outcome parameters (`PipelineEnv`) and an explicit
object-store state (`S3State`); the control flow, branch conditions, key
construction and status bookkeeping are translated directly from the source.
-/

namespace VidBatch

/-- Status values written into a Result by `main.py` (`processing`, `success`,
`failed`, `skipped`). -/
inductive Status
  | processing
  | success
  | failed
  | skipped
deriving DecidableEq, Repr

/-- One input task: `main.py` reads `task['url']` and `task['title']`
(other free-form fields are irrelevant to control flow). -/
structure Task where
  url : String
  title : String
deriving DecidableEq, Repr

/-- One per-task result, as built by `process_video`:
`result = {**task, 'video_id': ..., 'status': ..., ...}` with `channel` added
after metadata resolution and `error` added on failure.  The `processed_at`
timestamp is wall-clock and not modelled. -/
structure Result where
  url : String
  title : String
  video_id : String
  channel : String
  status : Status
  error : Option String
deriving DecidableEq, Repr

/-- Character class `[a-zA-Z0-9_-]` of the video-id regex in
`extract_video_id` (main.py lines 35-38). -/
def is_id_char (c : Char) : Bool :=
  c.isAlpha || c.isDigit || c == '_' || c == '-'

/-- Match exactly `n` id characters (the `{11}` quantifier): returns the
matched characters, or `none` if fewer than `n` id characters are available. -/
def take_id_chars : Nat → List Char → Option (List Char)
  | 0, _ => some []
  | _ + 1, [] => none
  | n + 1, c :: cs =>
      if is_id_char c then (take_id_chars n cs).map (fun l => c :: l) else none

/-- Try to match one literal alternative of the regex at the current position,
followed by exactly 11 id characters (the capture group). -/
def match_alt_at (pat : List Char) (s : List Char) : Option (List Char) :=
  if pat.isPrefixOf s then take_id_chars 11 (s.drop pat.length) else none

/-- `re.search` semantics for an alternation of literal prefixes each followed
by `([a-zA-Z0-9_-]{11})`: scan positions left to right, at each position try
the alternatives in order. -/
def search_alts (pats : List (List Char)) : List Char → Option (List Char)
  | [] => none
  | c :: rest =>
      match pats.findSome? (fun p => match_alt_at p (c :: rest)) with
      | some r => some r
      | none => search_alts pats rest

/-- Alternatives of the first pattern in `extract_video_id`
(`youtube.com/watch?v=`, `youtu.be/`, `youtube.com/embed/`). -/
def pattern1_alts : List (List Char) :=
  ["youtube.com/watch?v=".data, "youtu.be/".data, "youtube.com/embed/".data]

/-- Alternatives of the second pattern in `extract_video_id`
(`youtube.com/v/`). -/
def pattern2_alts : List (List Char) :=
  ["youtube.com/v/".data]

/-- `extract_video_id(url)` from main.py lines 33-45: tries the two regex
patterns in order and raises `ValueError` (modelled as `.error` with the
f-string message) if neither matches. -/
def extract_video_id (url : String) : Except String String :=
  match search_alts pattern1_alts url.data with
  | some cs => .ok (String.mk cs)
  | none =>
      match search_alts pattern2_alts url.data with
      | some cs => .ok (String.mk cs)
      | none => .error ("Could not extract video ID from URL: " ++ url)


/-- The object store: the set of (bucket, key) pairs currently present,
as observed through `head_object` / `upload_file`. -/
structure S3State where
  objects : List (String × String)
deriving DecidableEq, Repr

/-- `check_s3_object_exists(s3_client, bucket, key)` (main.py lines 120-130):
`head_object` succeeds exactly on present objects; 404 and transient errors
both return False. -/
def check_s3_object_exists (s3 : S3State) (bucket key : String) : Bool :=
  decide ((bucket, key) ∈ s3.objects)

/-- `upload_to_s3` (main.py lines 109-117): on success the object becomes
present and True is returned; on failure the store is unchanged and False is
returned.  Whether the network call succeeds is an external outcome, passed
in as `ok`. -/
def upload_to_s3 (ok : Bool) (s3 : S3State) (bucket key : String) : Bool × S3State :=
  if ok then (true, ⟨(bucket, key) :: s3.objects⟩) else (false, s3)

/-- The S3 part of the config dict built by `create_config_from_env`
(main.py lines 197-205): separate video/output buckets and a key namespace
`pfx` (the source's `config['s3']['prefix']`, renamed because `prefix` is a
Lean keyword). -/
structure S3Config where
  video_bucket : String
  output_bucket : String
  pfx : String
deriving DecidableEq, Repr

/-- `md_key = f"{prefix}{channel}/{video_id}/{video_id}_transcript.md"`
(main.py line 314). -/
def md_key (pfx channel video_id : String) : String :=
  pfx ++ channel ++ "/" ++ video_id ++ "/" ++ video_id ++ "_transcript.md"

/-- `json_key = f"{prefix}{channel}/{video_id}/{video_id}_transcript.json"`
(main.py line 315). -/
def json_key (pfx channel video_id : String) : String :=
  pfx ++ channel ++ "/" ++ video_id ++ "/" ++ video_id ++ "_transcript.json"

/-- `video_s3_key = f"{prefix}{channel}/{video_id}/{video_id}.mp4"`
(main.py line 341). -/
def video_s3_key (pfx channel video_id : String) : String :=
  pfx ++ channel ++ "/" ++ video_id ++ "/" ++ video_id ++ ".mp4"

/-- Outcome of an external stage call: it either returns, or raises an
exception carrying a message (`str(e)`). -/
inductive StageOutcome
  | ok
  | fail (msg : String)
deriving DecidableEq, Repr

/-- External outcomes of the per-task pipeline stages, fixed per task:
`channel` is the value resolved by `get_video_metadata` (which never raises:
it degrades to `"unknown"`); `download`/`extract` are the post-retry outcomes
of the `@retry`-wrapped stages; `transcribe` is the engine call;
`hasMarkdownPath`/`hasJsonPath` model whether the engine returned each output
path; the `*Upload` booleans are the return values of the corresponding
`upload_to_s3` calls. -/
structure PipelineEnv where
  channel : String
  download : StageOutcome
  videoUpload : Bool
  extract : StageOutcome
  transcribe : StageOutcome
  hasMarkdownPath : Bool
  mdUpload : Bool
  hasJsonPath : Bool
  jsonUpload : Bool
deriving DecidableEq, Repr

/-- The body of the `tempfile.TemporaryDirectory()` block of `process_video`
(main.py lines 332-376) together with the surrounding `except` clause
(lines 378-381): download, archive the video, extract audio, transcribe,
archive both outputs; the first exception maps the task to `failed` with the
exception message in `error`. -/
def run_pipeline (cfg : S3Config) (env : PipelineEnv) (base : Result)
    (mdK jsK vK : String) (s3 : S3State) : Result × S3State :=
  match env.download with
  | .fail msg => ({ base with status := .failed, error := some msg }, s3)
  | .ok =>
    let up := upload_to_s3 env.videoUpload s3 cfg.video_bucket vK
    if !up.1 then
      ({ base with status := .failed, error := some "Failed to upload video to S3" }, up.2)
    else
      match env.extract with
      | .fail msg => ({ base with status := .failed, error := some msg }, up.2)
      | .ok =>
        match env.transcribe with
        | .fail msg => ({ base with status := .failed, error := some msg }, up.2)
        | .ok =>
          let mdUp := if env.hasMarkdownPath then
              upload_to_s3 env.mdUpload up.2 cfg.output_bucket mdK
            else (false, up.2)
          let jsUp := if env.hasJsonPath then
              upload_to_s3 env.jsonUpload mdUp.2 cfg.output_bucket jsK
            else (false, mdUp.2)
          if mdUp.1 && jsUp.1 then
            ({ base with status := .success, error := none }, jsUp.2)
          else
            ({ base with
                status := .failed
                error := some "Failed to upload transcription outputs to S3" }, jsUp.2)

/-- The scan of the prior result list (main.py lines 324-329): is there a
prior entry with this `video_id` and `status == 'success'`? -/
def prior_success (results : List Result) (video_id : String) : Bool :=
  results.any (fun p => decide (p.video_id = video_id ∧ p.status = Status.success))

/-- `process_video(task, config, s3_client, mst, speaker_diarization, results)`
(main.py lines 291-383).  `extract_video_id` is called before the `try`
block, so its `ValueError` propagates out of `process_video` (modelled as
`none`).  Otherwise: resolve metadata, check output existence in S3, check
the prior result list, and only then run the pipeline. -/
def process_video (cfg : S3Config) (task : Task) (env : PipelineEnv)
    (s3 : S3State) (results : List Result) : Option (Result × S3State) :=
  match extract_video_id task.url with
  | .error _ => none
  | .ok video_id =>
    let channel := env.channel
    let base : Result :=
      ⟨task.url, task.title, video_id, channel, Status.processing, none⟩
    let mdK := md_key cfg.pfx channel video_id
    let jsK := json_key cfg.pfx channel video_id
    if check_s3_object_exists s3 cfg.output_bucket mdK &&
       check_s3_object_exists s3 cfg.output_bucket jsK then
      some ({ base with status := .skipped }, s3)
    else if prior_success results video_id then
      some ({ base with status := .skipped }, s3)
    else
      some (run_pipeline cfg env base mdK jsK (video_s3_key cfg.pfx channel video_id) s3)

/-- Observable outcome of one driver run (`main()`): the in-memory result
list, the successive persisted snapshots written by `save_results` (each a
full overwrite of results.json), the final object-store state, and the
process exit code. -/
structure DriverOutcome where
  results : List Result
  checkpoints : List (List Result)
  s3 : S3State
  exitCode : Nat
deriving DecidableEq, Repr

/-- The task loop of `main()` (main.py lines 531-576): process each task,
append its result, checkpoint the full result list after every task; an
exception escaping `process_video` hits the outer handler, which saves the
results accumulated so far and exits 1; after a clean loop the final save
runs and the exit code is 1 exactly when `any_failures` was set. -/
def mainLoop (cfg : S3Config) (existing : List Result) :
    List (Task × PipelineEnv) → List Result → List (List Result) → S3State → Bool →
    DriverOutcome
  | [], results, cks, s3, anyFailures =>
      ⟨results, cks ++ [results], s3, if anyFailures then 1 else 0⟩
  | (t, e) :: rest, results, cks, s3, anyFailures =>
      match process_video cfg t e s3 existing with
      | none => ⟨results, cks ++ [results], s3, 1⟩
      | some (r, s3o) =>
          mainLoop cfg existing rest (results ++ [r]) (cks ++ [results ++ [r]]) s3o
            (anyFailures || decide (r.status = Status.failed))

/-- `main()` end to end: `input = none` models a missing/undownloadable
`tasks.json` or a setup failure (`load_json_file(..., required=True)` /
the setup `except` branches call `sys.exit(1)` before any task is
processed); otherwise the task loop runs with empty in-memory results and
`any_failures = False`. -/
def runMain (cfg : S3Config) (existing : List Result)
    (input : Option (List (Task × PipelineEnv))) (s3 : S3State) : DriverOutcome :=
  match input with
  | none => ⟨[], [], s3, 1⟩
  | some pairs => mainLoop cfg existing pairs [] [] s3 false

/-- The aggregate returned by `S3BatchManager.get_job_status`
(s3_batch.py lines 204-253).  The float `progress` is modelled as a rational.
In the pending branch the source dict simply omits the `processing_tasks` key
(readers use `.get('processing_tasks', 0)`), modelled as 0. -/
structure JobStatusInfo where
  job_id : String
  status : String
  total_tasks : Nat
  completed_tasks : Nat
  failed_tasks : Nat
  skipped_tasks : Nat
  processing_tasks : Nat
  progress : ℚ
deriving DecidableEq, Repr

/-- `get_job_status(job_id)` (s3_batch.py lines 204-253), as a pure function
of the downloaded result list (`none` = results.json absent; `if not results`
also catches the empty list). -/
def get_job_status (job_id : String) (results : Option (List Result)) : JobStatusInfo :=
  match results with
  | none => ⟨job_id, "pending", 0, 0, 0, 0, 0, 0⟩
  | some [] => ⟨job_id, "pending", 0, 0, 0, 0, 0, 0⟩
  | some rs =>
    let total_tasks := rs.length
    let completed_tasks := rs.countP (fun r => decide (r.status = Status.success))
    let failed_tasks := rs.countP (fun r => decide (r.status = Status.failed))
    let skipped_tasks := rs.countP (fun r => decide (r.status = Status.skipped))
    let processing_tasks := rs.countP (fun r => decide (r.status = Status.processing))
    let progress : ℚ :=
      if 0 < total_tasks then
        ((completed_tasks + failed_tasks + skipped_tasks : Nat) : ℚ) / (total_tasks : ℚ)
      else 0
    let overall_status :=
      if 0 < processing_tasks then "processing"
      else if completed_tasks + skipped_tasks = total_tasks then "completed"
      else if 0 < failed_tasks then "partial_failure"
      else "pending"
    ⟨job_id, overall_status, total_tasks, completed_tasks, failed_tasks,
      skipped_tasks, processing_tasks, progress⟩

/-- Python `s.endswith("/")`: the last character is '/'. -/
def ends_with_slash (s : String) : Bool :=
  s.data.getLast? == some '/'

/-- The prefix normalization of `S3BatchManager.__init__` (s3_batch.py lines
49-51): a non-empty prefix not ending in '/' gets one appended. -/
def normalize_pfx (p : String) : String :=
  if p ≠ "" && !(ends_with_slash p) then p ++ "/" else p

/-- The state an `S3BatchManager` carries for key construction; the source's
`transcriber_prefix` attribute is called `transcriber_pfx` here (`prefix` is
a Lean keyword).  `mk_manager` is the constructor: it stores the normalized
prefix, and no other method ever reassigns it. -/
structure S3BatchManager where
  transcriber_bucket : String
  transcriber_pfx : String
deriving DecidableEq, Repr

/-- `S3BatchManager.__init__` with a resolved bucket and prefix argument. -/
def mk_manager (bucket p : String) : S3BatchManager :=
  ⟨bucket, normalize_pfx p⟩

/-- `tasks_key = f"{self.transcriber_prefix}{job_id}/tasks.json"`
(s3_batch.py line 101, also line 153). -/
def tasks_key (m : S3BatchManager) (job_id : String) : String :=
  m.transcriber_pfx ++ job_id ++ "/tasks.json"

/-- `config_key = f"{self.transcriber_prefix}{job_id}/config.json"`
(s3_batch.py line 114, also line 366). -/
def config_key (m : S3BatchManager) (job_id : String) : String :=
  m.transcriber_pfx ++ job_id ++ "/config.json"

/-- `resource_key = f"{self.transcriber_prefix}{job_id}/resources.json"`
(s3_batch.py line 126, also line 397). -/
def resources_key (m : S3BatchManager) (job_id : String) : String :=
  m.transcriber_pfx ++ job_id ++ "/resources.json"

/-- `results_key = f"{self.transcriber_prefix}{job_id}/results.json"`
(s3_batch.py line 183). -/
def results_key (m : S3BatchManager) (job_id : String) : String :=
  m.transcriber_pfx ++ job_id ++ "/results.json"

/-- The unified per-job output key of the spec, for comparison with the keys
the docker app actually computes.  Modelled from the spec: the layout
`{prefix}{jobId}/outputs/{channel}/{videoId}/{videoId}_transcript.md`
(spec section 6); no code under src/docker computes such a key. -/
def spec_output_md_key (pfx jobId channel videoId : String) : String :=
  pfx ++ jobId ++ "/outputs/" ++ channel ++ "/" ++ videoId ++ "/" ++ videoId ++ "_transcript.md"

/-- Modelled from the spec: the per-job input key
`{prefix}{jobId}/inputs/{channel}/{videoId}/{videoId}.<ext>` (spec section 6)
with the mp4 extension; no code under src/docker computes such a key. -/
def spec_input_key_mp4 (pfx jobId channel videoId : String) : String :=
  pfx ++ jobId ++ "/inputs/" ++ channel ++ "/" ++ videoId ++ "/" ++ videoId ++ ".mp4"

/-- The config `create_config_from_env` builds under the documented env-var
defaults (main.py lines 199-202): note the two distinct buckets. -/
def cfg0 : S3Config :=
  ⟨"video-bucket", "transcripts-bucket", "processed/"⟩

/-- A pipeline environment where every external call succeeds. -/
def env_all_ok : PipelineEnv :=
  ⟨"chan", .ok, true, .ok, .ok, true, true, true, true⟩

/-- A pipeline environment whose download stage raises after its retries. -/
def env_download_fails : PipelineEnv :=
  ⟨"chan", .fail "network down", true, .ok, .ok, true, true, true, true⟩

/-- A task with a well-formed YouTube URL (video id `AAAAAAAAAAA`). -/
def task_a : Task := ⟨"https://youtu.be/AAAAAAAAAAA", "Video A"⟩

/-- A second task with a distinct well-formed URL (video id `BBBBBBBBBBB`). -/
def task_b : Task := ⟨"https://youtu.be/BBBBBBBBBBB", "Video B"⟩

/-- A task whose URL matches no video-id pattern. -/
def task_bad : Task := ⟨"http://example.com/page", "Not YouTube"⟩

/-- The empty object store. -/
def s3_empty : S3State := ⟨[]⟩

/-- The error message `process_video` records for a task whose pipeline
fails, read off the stage outcomes in source order: the download exception,
the fatal video-archive failure, the extract exception, the engine
exception, then the combined output-upload failure; `none` when every stage
succeeds. -/
def pipeline_error_msg (env : PipelineEnv) : Option String :=
  match env.download with
  | .fail msg => some msg
  | .ok =>
    if !env.videoUpload then some "Failed to upload video to S3"
    else
      match env.extract with
      | .fail msg => some msg
      | .ok =>
        match env.transcribe with
        | .fail msg => some msg
        | .ok =>
          if (env.hasMarkdownPath && env.mdUpload) && (env.hasJsonPath && env.jsonUpload) then
            none
          else some "Failed to upload transcription outputs to S3"

lemma run_pipeline_status (cfg : S3Config) (env : PipelineEnv) (base : Result)
    (mdK jsK vK : String) (s3 : S3State) :
    (run_pipeline cfg env base mdK jsK vK s3).1.status = Status.success ∨
    (run_pipeline cfg env base mdK jsK vK s3).1.status = Status.failed := by
  obtain ⟨ch, dl, vu, ex, tr, hm, mu, hj, ju⟩ := env
  cases dl <;> cases vu <;> cases ex <;> cases tr <;> cases hm <;> cases mu <;>
    cases hj <;> cases ju <;> simp [run_pipeline, upload_to_s3]

lemma run_pipeline_base_fields (cfg : S3Config) (env : PipelineEnv) (base : Result)
    (mdK jsK vK : String) (s3 : S3State) :
    (run_pipeline cfg env base mdK jsK vK s3).1.url = base.url ∧
    (run_pipeline cfg env base mdK jsK vK s3).1.title = base.title ∧
    (run_pipeline cfg env base mdK jsK vK s3).1.video_id = base.video_id ∧
    (run_pipeline cfg env base mdK jsK vK s3).1.channel = base.channel := by
  obtain ⟨ch, dl, vu, ex, tr, hm, mu, hj, ju⟩ := env
  cases dl <;> cases vu <;> cases ex <;> cases tr <;> cases hm <;> cases mu <;>
    cases hj <;> cases ju <;> simp [run_pipeline, upload_to_s3]

lemma run_pipeline_success_keys (cfg : S3Config) (env : PipelineEnv) (base : Result)
    (mdK jsK vK : String) (s3 : S3State)
    (hs : (run_pipeline cfg env base mdK jsK vK s3).1.status = Status.success) :
    check_s3_object_exists (run_pipeline cfg env base mdK jsK vK s3).2
        cfg.output_bucket mdK = true ∧
    check_s3_object_exists (run_pipeline cfg env base mdK jsK vK s3).2
        cfg.output_bucket jsK = true ∧
    check_s3_object_exists (run_pipeline cfg env base mdK jsK vK s3).2
        cfg.video_bucket vK = true := by
  obtain ⟨ch, dl, vu, ex, tr, hm, mu, hj, ju⟩ := env
  cases dl <;> cases vu <;> cases ex <;> cases tr <;> cases hm <;> cases mu <;>
    cases hj <;> cases ju <;>
      simp_all [run_pipeline, upload_to_s3, check_s3_object_exists]

lemma run_pipeline_failed_error (cfg : S3Config) (env : PipelineEnv) (base : Result)
    (mdK jsK vK : String) (s3 : S3State)
    (hf : (run_pipeline cfg env base mdK jsK vK s3).1.status = Status.failed) :
    (run_pipeline cfg env base mdK jsK vK s3).1.error = pipeline_error_msg env ∧
    (pipeline_error_msg env).isSome = true := by
  obtain ⟨ch, dl, vu, ex, tr, hm, mu, hj, ju⟩ := env
  cases dl <;> cases vu <;> cases ex <;> cases tr <;> cases hm <;> cases mu <;>
    cases hj <;> cases ju <;>
      simp_all [run_pipeline, upload_to_s3, pipeline_error_msg]

lemma process_video_isSome (cfg : S3Config) (task : Task) (env : PipelineEnv)
    (s3 : S3State) (results : List Result)
    (h : (extract_video_id task.url).isOk = true) :
    ∃ r s3o, process_video cfg task env s3 results = some (r, s3o) := by
  cases hev : extract_video_id task.url with
  | error e => rw [hev] at h; simp [Except.isOk, Except.toBool] at h
  | ok vid =>
    simp only [process_video, hev]
    split_ifs <;> exact ⟨_, _, rfl⟩

lemma process_video_fields (cfg : S3Config) (task : Task) (env : PipelineEnv)
    (s3 : S3State) (results : List Result) (vid : String) (r : Result) (s3o : S3State)
    (hev : extract_video_id task.url = .ok vid)
    (hp : process_video cfg task env s3 results = some (r, s3o)) :
    r.url = task.url ∧ r.video_id = vid ∧ r.channel = env.channel := by
  simp only [process_video, hev] at hp
  split_ifs at hp
  · obtain ⟨hr, _⟩ := Prod.mk.injEq .. ▸ Option.some.inj hp
    subst hr
    exact ⟨rfl, rfl, rfl⟩
  · obtain ⟨hr, _⟩ := Prod.mk.injEq .. ▸ Option.some.inj hp
    subst hr
    exact ⟨rfl, rfl, rfl⟩
  · have hp2 := Option.some.inj hp
    have hb := run_pipeline_base_fields cfg env
      ⟨task.url, task.title, vid, env.channel, Status.processing, none⟩
      (md_key cfg.pfx env.channel vid) (json_key cfg.pfx env.channel vid)
      (video_s3_key cfg.pfx env.channel vid) s3
    rw [hp2] at hb
    exact ⟨hb.1, hb.2.2.1, hb.2.2.2⟩

lemma process_video_skip_iff (cfg : S3Config) (task : Task) (env : PipelineEnv)
    (s3 : S3State) (results : List Result) (vid : String) (r : Result) (s3o : S3State)
    (hev : extract_video_id task.url = .ok vid)
    (hp : process_video cfg task env s3 results = some (r, s3o)) :
    (r.status = Status.skipped ↔
      ((check_s3_object_exists s3 cfg.output_bucket (md_key cfg.pfx env.channel vid) = true ∧
        check_s3_object_exists s3 cfg.output_bucket (json_key cfg.pfx env.channel vid) = true) ∨
       (∃ p ∈ results, p.video_id = vid ∧ p.status = Status.success))) := by
  simp only [process_video, hev] at hp
  split_ifs at hp with h1 h2
  · obtain ⟨hr, _⟩ := Prod.mk.injEq .. ▸ Option.some.inj hp
    subst hr
    rw [Bool.and_eq_true] at h1
    simp only [true_iff]
    exact Or.inl h1
  · obtain ⟨hr, _⟩ := Prod.mk.injEq .. ▸ Option.some.inj hp
    subst hr
    simp only [prior_success, List.any_eq_true, decide_eq_true_eq] at h2
    simp only [true_iff]
    exact Or.inr h2
  · have hp2 := Option.some.inj hp
    have hst : r.status = Status.success ∨ r.status = Status.failed := by
      have h := run_pipeline_status cfg env
        ⟨task.url, task.title, vid, env.channel, Status.processing, none⟩
        (md_key cfg.pfx env.channel vid) (json_key cfg.pfx env.channel vid)
        (video_s3_key cfg.pfx env.channel vid) s3
      rw [hp2] at h
      exact h
    constructor
    · intro hsk
      rcases hst with h | h <;> rw [hsk] at h <;> exact absurd h (by simp)
    · intro hrhs
      rcases hrhs with ⟨ha, hb⟩ | hex
      · exact absurd (by rw [ha, hb]; rfl) h1
      · refine absurd ?_ h2
        simp only [prior_success, List.any_eq_true, decide_eq_true_eq]
        exact hex

lemma process_video_success_keys (cfg : S3Config) (task : Task) (env : PipelineEnv)
    (s3 : S3State) (results : List Result) (vid : String) (r : Result) (s3o : S3State)
    (hev : extract_video_id task.url = .ok vid)
    (hp : process_video cfg task env s3 results = some (r, s3o))
    (hs : r.status = Status.success) :
    check_s3_object_exists s3o cfg.output_bucket (md_key cfg.pfx env.channel vid) = true ∧
    check_s3_object_exists s3o cfg.output_bucket (json_key cfg.pfx env.channel vid) = true ∧
    check_s3_object_exists s3o cfg.video_bucket (video_s3_key cfg.pfx env.channel vid) = true := by
  simp only [process_video, hev] at hp
  split_ifs at hp
  · obtain ⟨hr, _⟩ := Prod.mk.injEq .. ▸ Option.some.inj hp
    rw [← hr] at hs
    simp at hs
  · obtain ⟨hr, _⟩ := Prod.mk.injEq .. ▸ Option.some.inj hp
    rw [← hr] at hs
    simp at hs
  · have hp2 := Option.some.inj hp
    have hk := run_pipeline_success_keys cfg env
      ⟨task.url, task.title, vid, env.channel, Status.processing, none⟩
      (md_key cfg.pfx env.channel vid) (json_key cfg.pfx env.channel vid)
      (video_s3_key cfg.pfx env.channel vid) s3 (by rw [hp2]; exact hs)
    rw [hp2] at hk
    exact hk

lemma process_video_failed_error (cfg : S3Config) (task : Task) (env : PipelineEnv)
    (s3 : S3State) (results : List Result) (vid : String) (r : Result) (s3o : S3State)
    (hev : extract_video_id task.url = .ok vid)
    (hp : process_video cfg task env s3 results = some (r, s3o))
    (hf : r.status = Status.failed) :
    r.error = pipeline_error_msg env ∧ (pipeline_error_msg env).isSome = true := by
  simp only [process_video, hev] at hp
  split_ifs at hp
  · obtain ⟨hr, _⟩ := Prod.mk.injEq .. ▸ Option.some.inj hp
    rw [← hr] at hf
    simp at hf
  · obtain ⟨hr, _⟩ := Prod.mk.injEq .. ▸ Option.some.inj hp
    rw [← hr] at hf
    simp at hf
  · have hp2 := Option.some.inj hp
    have he := run_pipeline_failed_error cfg env
      ⟨task.url, task.title, vid, env.channel, Status.processing, none⟩
      (md_key cfg.pfx env.channel vid) (json_key cfg.pfx env.channel vid)
      (video_s3_key cfg.pfx env.channel vid) s3 (by rw [hp2]; exact hf)
    rw [hp2] at he
    exact he

lemma mainLoop_spec (cfg : S3Config) (existing : List Result) :
    ∀ (pairs : List (Task × PipelineEnv)) (results : List Result)
      (cks : List (List Result)) (s3 : S3State) (anyF : Bool),
    (∀ p ∈ pairs, (extract_video_id p.1.url).isOk = true) →
    ∃ news : List Result,
      (mainLoop cfg existing pairs results cks s3 anyF).results = results ++ news ∧
      news.length = pairs.length ∧
      (mainLoop cfg existing pairs results cks s3 anyF).checkpoints
        = cks ++ (List.range pairs.length).map (fun i => results ++ news.take (i+1))
          ++ [results ++ news] ∧
      (mainLoop cfg existing pairs results cks s3 anyF).exitCode
        = (if (anyF || news.any fun r => decide (r.status = Status.failed)) = true
           then 1 else 0) ∧
      (∀ i, i < pairs.length →
        ∃ te r s3i s3o, pairs[i]? = some te ∧ news[i]? = some r ∧
          process_video cfg te.1 te.2 s3i existing = some (r, s3o)) := by
  intro pairs
  induction pairs with
  | nil =>
    intro results cks s3 anyF _
    exact ⟨[], by simp [mainLoop], by simp, by simp [mainLoop], by simp [mainLoop],
      by intro i hi; simp at hi⟩
  | cons p rest ih =>
    intro results cks s3 anyF hex
    obtain ⟨t, e⟩ := p
    have ht : (extract_video_id t.url).isOk = true := hex (t, e) (List.mem_cons_self _ _)
    obtain ⟨r, s3o, hp⟩ := process_video_isSome cfg t e s3 existing ht
    obtain ⟨news, h1, h2, h3, h4, h5⟩ :=
      ih (results ++ [r]) (cks ++ [results ++ [r]]) s3o
        (anyF || decide (r.status = Status.failed))
        (fun q hq => hex q (List.mem_cons_of_mem _ hq))
    have hml : mainLoop cfg existing ((t, e) :: rest) results cks s3 anyF
        = mainLoop cfg existing rest (results ++ [r]) (cks ++ [results ++ [r]]) s3o
            (anyF || decide (r.status = Status.failed)) := by
      simp only [mainLoop]
      rw [hp]
    refine ⟨r :: news, ?_, ?_, ?_, ?_, ?_⟩
    · rw [hml, h1]; simp
    · simp [h2]
    · rw [hml, h3, List.length_cons, List.range_succ_eq_map, List.map_cons, List.map_map]
      have hfun : ((fun i => results ++ (r :: news).take (i + 1)) ∘ Nat.succ)
          = (fun i => (results ++ [r]) ++ news.take (i + 1)) := by
        funext i
        simp [Function.comp, List.take_succ_cons, List.append_assoc]
      rw [hfun]
      simp [List.take_succ_cons, List.append_assoc]
    · rw [hml, h4]
      simp [List.any_cons, Bool.or_assoc]
    · intro i hi
      cases i with
      | zero => exact ⟨(t, e), r, s3, s3o, by simp, by simp, hp⟩
      | succ j =>
        obtain ⟨te, r', s3i, s3o', ha, hb, hc⟩ := h5 j (by simpa using hi)
        exact ⟨te, r', s3i, s3o', by simpa using ha, by simpa using hb, hc⟩

/-- A second task whose URL maps to the same video id as `task_a`. -/
def task_a2 : Task := ⟨"https://youtu.be/AAAAAAAAAAA", "Video A again"⟩

/-- A prior Result for video `AAAAAAAAAAA` that ended `failed`. -/
def r_a_failed : Result :=
  ⟨task_a.url, task_a.title, "AAAAAAAAAAA", "chan", Status.failed, some "earlier failure"⟩

/-- The Result `process_video` produces for `task_a` under `env_all_ok`. -/
def r_a_success : Result :=
  ⟨task_a.url, task_a.title, "AAAAAAAAAAA", "chan", Status.success, none⟩

/-- The object store after `task_a` has been fully processed from an empty
store under `cfg0`. -/
def s3_after_a : S3State :=
  ⟨[("transcripts-bucket", "processed/chan/AAAAAAAAAAA/AAAAAAAAAAA_transcript.json"),
    ("transcripts-bucket", "processed/chan/AAAAAAAAAAA/AAAAAAAAAAA_transcript.md"),
    ("video-bucket", "processed/chan/AAAAAAAAAAA/AAAAAAAAAAA.mp4")]⟩


/-- Claim C1.  For every task evaluated by the idempotency gate (a task whose
URL yields a video id), the decision is skip exactly when either both output
objects already exist in the store at the computed output keys, or the prior
result list contains an entry with the same video id and status success; in
particular a prior `failed` entry does not satisfy the skip condition. -/
theorem claim1_gate_skip_iff (cfg : S3Config) (task : Task) (env : PipelineEnv)
    (s3 : S3State) (results : List Result) (vid : String)
    (hev : extract_video_id task.url = .ok vid) :
    ∃ r s3o, process_video cfg task env s3 results = some (r, s3o) ∧
      (r.status = Status.skipped ↔
        ((check_s3_object_exists s3 cfg.output_bucket (md_key cfg.pfx env.channel vid) = true ∧
          check_s3_object_exists s3 cfg.output_bucket (json_key cfg.pfx env.channel vid) = true) ∨
         ∃ p ∈ results, p.video_id = vid ∧ p.status = Status.success)) := by
  obtain ⟨r, s3o, hp⟩ := process_video_isSome cfg task env s3 results (by rw [hev]; rfl)
  exact ⟨r, s3o, hp, process_video_skip_iff cfg task env s3 results vid r s3o hev hp⟩

/-- Witness for C1 at a concrete input: one prior `failed` result for the
same video and an empty store, so the gate decides run (not skip). -/
theorem claim1_gate_skip_iff_witness :
    ∃ r s3o, process_video cfg0 task_a env_all_ok s3_empty [r_a_failed] = some (r, s3o) ∧
      (r.status = Status.skipped ↔
        ((check_s3_object_exists s3_empty cfg0.output_bucket
            (md_key cfg0.pfx env_all_ok.channel "AAAAAAAAAAA") = true ∧
          check_s3_object_exists s3_empty cfg0.output_bucket
            (json_key cfg0.pfx env_all_ok.channel "AAAAAAAAAAA") = true) ∨
         ∃ p ∈ [r_a_failed], p.video_id = "AAAAAAAAAAA" ∧ p.status = Status.success)) :=
  claim1_gate_skip_iff cfg0 task_a env_all_ok s3_empty [r_a_failed] "AAAAAAAAAAA" rfl

/-- Claim C4.  `extract_video_id` is a pure function (deterministic by
construction in this embedding); on a malformed URL it fails with the
descriptive `ValueError` message — but since `process_video` calls it before
its `try` block, the exception escapes to the outer handler of `main()`:
the whole job aborts with exit code 1, the failing task gets no `failed`
Result, and the remaining tasks are never executed.  Evaluated here at the
failing input `[task_bad, task_a]`. -/
theorem claim4_malformed_url_aborts_job :
    extract_video_id task_a.url = .ok "AAAAAAAAAAA" ∧
    extract_video_id task_bad.url
      = .error "Could not extract video ID from URL: http://example.com/page" ∧
    (runMain cfg0 [] (some [(task_bad, env_all_ok), (task_a, env_all_ok)]) s3_empty).results
      = [] ∧
    (runMain cfg0 [] (some [(task_bad, env_all_ok), (task_a, env_all_ok)]) s3_empty).checkpoints
      = [[]] ∧
    (runMain cfg0 [] (some [(task_bad, env_all_ok), (task_a, env_all_ok)]) s3_empty).exitCode
      = 1 :=
  ⟨rfl, rfl, rfl, rfl, rfl⟩

/-- Claim C6.  If two tasks map to the same video id, the channels resolve
equally, and the first task's processing ended `success`, then processing the
second task against the resulting store skips it without touching the store:
the collision is resolved by the storage-existence check. -/
theorem claim6_collision_skip (cfg : S3Config) (t1 t2 : Task) (e1 e2 : PipelineEnv)
    (s3 : S3State) (existing : List Result) (vid : String) (r1 : Result) (s3o : S3State)
    (h1 : extract_video_id t1.url = .ok vid)
    (h2 : extract_video_id t2.url = .ok vid)
    (hch : e2.channel = e1.channel)
    (hp : process_video cfg t1 e1 s3 existing = some (r1, s3o))
    (hs : r1.status = Status.success) :
    process_video cfg t2 e2 s3o existing
      = some (⟨t2.url, t2.title, vid, e2.channel, Status.skipped, none⟩, s3o) := by
  obtain ⟨hmd, hjs, _⟩ :=
    process_video_success_keys cfg t1 e1 s3 existing vid r1 s3o h1 hp hs
  simp only [process_video, h2, hch, hmd, hjs, Bool.and_self, if_true]

/-- Witness for C6 at a concrete input: `task_a` succeeds from an empty
store, then `task_a2` (same video id) is skipped. -/
theorem claim6_collision_skip_witness :
    process_video cfg0 task_a2 env_all_ok s3_after_a []
      = some (⟨task_a2.url, task_a2.title, "AAAAAAAAAAA", env_all_ok.channel,
          Status.skipped, none⟩, s3_after_a) :=
  claim6_collision_skip cfg0 task_a task_a2 env_all_ok env_all_ok s3_empty []
    "AAAAAAAAAAA" r_a_success s3_after_a rfl rfl rfl rfl rfl

lemma run_pipeline_video_key (cfg : S3Config) (env : PipelineEnv) (base : Result)
    (mdK jsK vK : String) (s3 : S3State)
    (hd : env.download = .ok) (hv : env.videoUpload = true) :
    check_s3_object_exists (run_pipeline cfg env base mdK jsK vK s3).2
      cfg.video_bucket vK = true := by
  obtain ⟨ch, dl, vu, ex, tr, hm, mu, hj, ju⟩ := env
  simp only at hd hv
  subst hd hv
  cases ex <;> cases tr <;> cases hm <;> cases mu <;> cases hj <;> cases ju <;>
    simp [run_pipeline, upload_to_s3, check_s3_object_exists]

lemma run_pipeline_partial_md (cfg : S3Config) (env : PipelineEnv) (base : Result)
    (mdK jsK vK : String) (s3 : S3State)
    (hd : env.download = .ok) (hv : env.videoUpload = true)
    (hx : env.extract = .ok) (ht : env.transcribe = .ok)
    (hm : env.hasMarkdownPath = true) (hmu : env.mdUpload = true)
    (hj : env.hasJsonPath = true) (hju : env.jsonUpload = false) :
    (run_pipeline cfg env base mdK jsK vK s3).1.status = Status.failed ∧
    check_s3_object_exists (run_pipeline cfg env base mdK jsK vK s3).2
      cfg.output_bucket mdK = true := by
  obtain ⟨ch, dl, vu, ex, tr, hm', mu, hj', ju⟩ := env
  simp only at hd hv hx ht hm hmu hj hju
  subst hd hv hx ht hm hmu hj hju
  simp [run_pipeline, upload_to_s3, check_s3_object_exists]

lemma run_pipeline_partial_json (cfg : S3Config) (env : PipelineEnv) (base : Result)
    (mdK jsK vK : String) (s3 : S3State)
    (hd : env.download = .ok) (hv : env.videoUpload = true)
    (hx : env.extract = .ok) (ht : env.transcribe = .ok)
    (hm : env.hasMarkdownPath = true) (hmu : env.mdUpload = false)
    (hj : env.hasJsonPath = true) (hju : env.jsonUpload = true) :
    (run_pipeline cfg env base mdK jsK vK s3).1.status = Status.failed ∧
    check_s3_object_exists (run_pipeline cfg env base mdK jsK vK s3).2
      cfg.output_bucket jsK = true := by
  obtain ⟨ch, dl, vu, ex, tr, hm', mu, hj', ju⟩ := env
  simp only at hd hv hx ht hm hmu hj hju
  subst hd hv hx ht hm hmu hj hju
  simp [run_pipeline, upload_to_s3, check_s3_object_exists]

lemma process_video_run_branch (cfg : S3Config) (task : Task) (env : PipelineEnv)
    (s3 : S3State) (results : List Result) (vid : String) (r : Result) (s3o : S3State)
    (hev : extract_video_id task.url = .ok vid)
    (hp : process_video cfg task env s3 results = some (r, s3o))
    (hg1 : (check_s3_object_exists s3 cfg.output_bucket (md_key cfg.pfx env.channel vid) &&
            check_s3_object_exists s3 cfg.output_bucket (json_key cfg.pfx env.channel vid))
           = false)
    (hg2 : prior_success results vid = false) :
    run_pipeline cfg env
      ⟨task.url, task.title, vid, env.channel, Status.processing, none⟩
      (md_key cfg.pfx env.channel vid) (json_key cfg.pfx env.channel vid)
      (video_s3_key cfg.pfx env.channel vid) s3 = (r, s3o) := by
  simp only [process_video, hev, hg1, hg2, Bool.false_eq_true, if_false] at hp
  exact Option.some.inj hp

/-- Claim C5 (amended).  For a task that runs the pipeline, the video is
archived at `{prefix}{channel}/{videoId}/{videoId}.mp4` in the video bucket
as soon as download and video upload succeed (even if the task later fails),
and on task success both transcription outputs are archived in the output
bucket at `{prefix}{channel}/{videoId}/{videoId}_transcript.md` and
`..._transcript.json` — exactly the keys the idempotency gate probes.  The
keys carry no job id, no `inputs/`/`outputs/` segment, and the two artifact
kinds live in two separately configured buckets. -/
theorem claim5_archive_keys (cfg : S3Config) (task : Task) (env : PipelineEnv)
    (s3 : S3State) (results : List Result) (vid : String) (r : Result) (s3o : S3State)
    (hev : extract_video_id task.url = .ok vid)
    (hp : process_video cfg task env s3 results = some (r, s3o)) :
    (r.status = Status.success →
      check_s3_object_exists s3o cfg.video_bucket (video_s3_key cfg.pfx env.channel vid) = true ∧
      check_s3_object_exists s3o cfg.output_bucket (md_key cfg.pfx env.channel vid) = true ∧
      check_s3_object_exists s3o cfg.output_bucket (json_key cfg.pfx env.channel vid) = true) ∧
    ((check_s3_object_exists s3 cfg.output_bucket (md_key cfg.pfx env.channel vid) &&
      check_s3_object_exists s3 cfg.output_bucket (json_key cfg.pfx env.channel vid)) = false →
     prior_success results vid = false →
     env.download = .ok → env.videoUpload = true →
     check_s3_object_exists s3o cfg.video_bucket (video_s3_key cfg.pfx env.channel vid) = true) ∧
    md_key cfg.pfx env.channel vid
      = cfg.pfx ++ env.channel ++ "/" ++ vid ++ "/" ++ vid ++ "_transcript.md" ∧
    json_key cfg.pfx env.channel vid
      = cfg.pfx ++ env.channel ++ "/" ++ vid ++ "/" ++ vid ++ "_transcript.json" ∧
    video_s3_key cfg.pfx env.channel vid
      = cfg.pfx ++ env.channel ++ "/" ++ vid ++ "/" ++ vid ++ ".mp4" := by
  refine ⟨?_, ?_, rfl, rfl, rfl⟩
  · intro hs
    obtain ⟨hmd, hjs, hv⟩ :=
      process_video_success_keys cfg task env s3 results vid r s3o hev hp hs
    exact ⟨hv, hmd, hjs⟩
  · intro hg1 hg2 hd hv
    have hrp := process_video_run_branch cfg task env s3 results vid r s3o hev hp hg1 hg2
    have hk := run_pipeline_video_key cfg env
      ⟨task.url, task.title, vid, env.channel, Status.processing, none⟩
      (md_key cfg.pfx env.channel vid) (json_key cfg.pfx env.channel vid)
      (video_s3_key cfg.pfx env.channel vid) s3 hd hv
    rw [hrp] at hk
    exact hk

/-- Witness for the amended C5 at a concrete input: a fully successful run
of `task_a` from the empty store. -/
theorem claim5_archive_keys_witness :
    check_s3_object_exists s3_after_a cfg0.video_bucket
      (video_s3_key cfg0.pfx env_all_ok.channel "AAAAAAAAAAA") = true ∧
    check_s3_object_exists s3_after_a cfg0.output_bucket
      (md_key cfg0.pfx env_all_ok.channel "AAAAAAAAAAA") = true ∧
    check_s3_object_exists s3_after_a cfg0.output_bucket
      (json_key cfg0.pfx env_all_ok.channel "AAAAAAAAAAA") = true :=
  (claim5_archive_keys cfg0 task_a env_all_ok s3_empty [] "AAAAAAAAAAA"
    r_a_success s3_after_a rfl rfl).1 rfl

/-- Counterexample to C5 as stated: after a fully successful run, the
outputs sit at the gate's keys in the output bucket, while the spec's
job-scoped `{prefix}{jobId}/outputs/...` and `{prefix}{jobId}/inputs/...`
keys (here with job id `job-1`) hold nothing, and the video artifact is not
in the output bucket (there is no single bucket). -/
theorem claim5_counterexample :
    (runMain cfg0 [] (some [(task_a, env_all_ok)]) s3_empty).s3 = s3_after_a ∧
    check_s3_object_exists s3_after_a cfg0.output_bucket
      (md_key cfg0.pfx "chan" "AAAAAAAAAAA") = true ∧
    check_s3_object_exists s3_after_a cfg0.output_bucket
      (spec_output_md_key cfg0.pfx "job-1" "chan" "AAAAAAAAAAA") = false ∧
    check_s3_object_exists s3_after_a cfg0.video_bucket
      (spec_input_key_mp4 cfg0.pfx "job-1" "chan" "AAAAAAAAAAA") = false ∧
    md_key cfg0.pfx "chan" "AAAAAAAAAAA"
      ≠ spec_output_md_key cfg0.pfx "job-1" "chan" "AAAAAAAAAAA" ∧
    check_s3_object_exists s3_after_a cfg0.output_bucket
      (video_s3_key cfg0.pfx "chan" "AAAAAAAAAAA") = false := by
  refine ⟨rfl, rfl, rfl, rfl, ?_, rfl⟩
  decide

/-- Claim C8.  A task ends `success` only if both output artifacts were
uploaded (both then exist in the store); when the pipeline reaches the upload
stage with both output paths present and exactly one of the two uploads
fails, the task ends `failed` while the successfully uploaded artifact stays
in the store. -/
theorem claim8_partial_upload (cfg : S3Config) (task : Task) (env : PipelineEnv)
    (s3 : S3State) (results : List Result) (vid : String) (r : Result) (s3o : S3State)
    (hev : extract_video_id task.url = .ok vid)
    (hp : process_video cfg task env s3 results = some (r, s3o)) :
    (r.status = Status.success →
      check_s3_object_exists s3o cfg.output_bucket (md_key cfg.pfx env.channel vid) = true ∧
      check_s3_object_exists s3o cfg.output_bucket (json_key cfg.pfx env.channel vid) = true) ∧
    ((check_s3_object_exists s3 cfg.output_bucket (md_key cfg.pfx env.channel vid) &&
      check_s3_object_exists s3 cfg.output_bucket (json_key cfg.pfx env.channel vid)) = false →
     prior_success results vid = false →
     env.download = .ok → env.videoUpload = true →
     env.extract = .ok → env.transcribe = .ok →
     env.hasMarkdownPath = true → env.hasJsonPath = true →
     (env.mdUpload = true → env.jsonUpload = false →
       r.status = Status.failed ∧
       check_s3_object_exists s3o cfg.output_bucket (md_key cfg.pfx env.channel vid) = true) ∧
     (env.mdUpload = false → env.jsonUpload = true →
       r.status = Status.failed ∧
       check_s3_object_exists s3o cfg.output_bucket (json_key cfg.pfx env.channel vid) = true)) := by
  constructor
  · intro hs
    obtain ⟨hmd, hjs, _⟩ :=
      process_video_success_keys cfg task env s3 results vid r s3o hev hp hs
    exact ⟨hmd, hjs⟩
  · intro hg1 hg2 hd hv hx ht hm hj
    have hrp := process_video_run_branch cfg task env s3 results vid r s3o hev hp hg1 hg2
    constructor
    · intro hmu hju
      have hk := run_pipeline_partial_md cfg env
        ⟨task.url, task.title, vid, env.channel, Status.processing, none⟩
        (md_key cfg.pfx env.channel vid) (json_key cfg.pfx env.channel vid)
        (video_s3_key cfg.pfx env.channel vid) s3 hd hv hx ht hm hmu hj hju
      rw [hrp] at hk
      exact hk
    · intro hmu hju
      have hk := run_pipeline_partial_json cfg env
        ⟨task.url, task.title, vid, env.channel, Status.processing, none⟩
        (md_key cfg.pfx env.channel vid) (json_key cfg.pfx env.channel vid)
        (video_s3_key cfg.pfx env.channel vid) s3 hd hv hx ht hm hmu hj hju
      rw [hrp] at hk
      exact hk

/-- A pipeline environment where only the json upload fails. -/
def env_json_upload_fails : PipelineEnv :=
  ⟨"chan", .ok, true, .ok, .ok, true, true, true, false⟩

/-- Witness for C8 at a concrete input: `task_a` with the json upload
failing; the theorem's partial-upload branch applies and yields `failed`
with the markdown artifact persisted. -/
theorem claim8_partial_upload_witness :
    ∃ r s3o, process_video cfg0 task_a env_json_upload_fails s3_empty [] = some (r, s3o) ∧
      r.status = Status.failed ∧
      check_s3_object_exists s3o cfg0.output_bucket
        (md_key cfg0.pfx env_json_upload_fails.channel "AAAAAAAAAAA") = true := by
  refine ⟨_, _, rfl, ?_⟩
  exact ((claim8_partial_upload cfg0 task_a env_json_upload_fails s3_empty []
    "AAAAAAAAAAA" _ _ rfl rfl).2 rfl rfl rfl rfl rfl rfl rfl rfl).1 rfl rfl

lemma mem_of_getElem_opt {α : Type} {l : List α} {i : Nat} {a : α}
    (h : l[i]? = some a) : a ∈ l := by
  obtain ⟨hlt, rfl⟩ := List.getElem?_eq_some.mp h
  exact List.getElem_mem ..

lemma isOk_exists_ok {u : String} (h : (extract_video_id u).isOk = true) :
    ∃ vid, extract_video_id u = .ok vid := by
  cases hev : extract_video_id u with
  | error e => rw [hev] at h; simp [Except.isOk, Except.toBool] at h
  | ok vid => exact ⟨vid, rfl⟩

/-- Claim C2.  In a run whose tasks all yield video ids, the driver appends
exactly one Result per task and checkpoints the full result list after every
task: the result list ends with one entry per task in input order, and for
every K the K-th persisted snapshot is exactly the first K+1 results. -/
theorem claim2_checkpointing (cfg : S3Config) (existing : List Result)
    (s3 : S3State) (pairs : List (Task × PipelineEnv))
    (hex : ∀ p ∈ pairs, (extract_video_id p.1.url).isOk = true) :
    (runMain cfg existing (some pairs) s3).results.length = pairs.length ∧
    (∀ K, K < pairs.length →
      (runMain cfg existing (some pairs) s3).checkpoints[K]?
        = some ((runMain cfg existing (some pairs) s3).results.take (K + 1)) ∧
      ((runMain cfg existing (some pairs) s3).results.take (K + 1)).length = K + 1) ∧
    (∀ i, i < pairs.length → ∃ te r,
      pairs[i]? = some te ∧
      (runMain cfg existing (some pairs) s3).results[i]? = some r ∧
      r.url = te.1.url) := by
  have hrm : runMain cfg existing (some pairs) s3
      = mainLoop cfg existing pairs [] [] s3 false := rfl
  obtain ⟨news, h1, h2, h3, h4, h5⟩ := mainLoop_spec cfg existing pairs [] [] s3 false hex
  simp only [List.nil_append] at h1 h3
  refine ⟨?_, ?_, ?_⟩
  · rw [hrm, h1, h2]
  · intro K hK
    have hlen : ((List.range pairs.length).map fun i => news.take (i + 1)).length
        = pairs.length := by simp
    constructor
    · rw [hrm, h3, h1, List.getElem?_append_left (by rw [hlen]; exact hK),
        List.getElem?_map, List.getElem?_range hK]
      rfl
    · rw [hrm, h1, List.length_take, h2]
      omega
  · intro i hi
    obtain ⟨te, r, s3i, s3o, ha, hb, hc⟩ := h5 i hi
    obtain ⟨vid, hev⟩ := isOk_exists_ok (hex te (mem_of_getElem_opt ha))
    obtain ⟨hurl, _, _⟩ := process_video_fields cfg te.1 te.2 s3i existing vid r s3o hev hc
    exact ⟨te, r, ha, by rw [hrm, h1]; exact hb, hurl⟩

/-- Witness for C2 at a concrete input: a two-task run (one download failure,
one success). -/
theorem claim2_checkpointing_witness :
    (∀ p ∈ [(task_a, env_download_fails), (task_b, env_all_ok)],
      (extract_video_id p.1.url).isOk = true) ∧
    (runMain cfg0 [] (some [(task_a, env_download_fails), (task_b, env_all_ok)])
      s3_empty).results.length = 2 :=
  ⟨by decide,
   (claim2_checkpointing cfg0 [] s3_empty
     [(task_a, env_download_fails), (task_b, env_all_ok)] (by decide)).1⟩

/-- Claim C7.  In a run whose tasks all yield video ids, if the result at
position N is `failed` and every other position is not `failed`, then: the
run still produced one result per task (no abort), `failed` occurs exactly
at position N, the recorded error is precisely the failing stage's exception
message for task N's environment, and the process exits 1. -/
theorem claim7_failure_isolation (cfg : S3Config) (existing : List Result)
    (s3 : S3State) (pairs : List (Task × PipelineEnv)) (N : Nat) (rN : Result)
    (hex : ∀ p ∈ pairs, (extract_video_id p.1.url).isOk = true)
    (hN : N < pairs.length)
    (hNr : (runMain cfg existing (some pairs) s3).results[N]? = some rN)
    (hf : rN.status = Status.failed)
    (hrest : ∀ i r, i < pairs.length → i ≠ N →
      (runMain cfg existing (some pairs) s3).results[i]? = some r →
      r.status ≠ Status.failed) :
    (runMain cfg existing (some pairs) s3).results.length = pairs.length ∧
    (∀ i r, i < pairs.length →
      (runMain cfg existing (some pairs) s3).results[i]? = some r →
      (r.status = Status.failed ↔ i = N)) ∧
    (∃ te msg, pairs[N]? = some te ∧ rN.error = some msg ∧
      pipeline_error_msg te.2 = some msg) ∧
    (runMain cfg existing (some pairs) s3).exitCode = 1 := by
  have hrm : runMain cfg existing (some pairs) s3
      = mainLoop cfg existing pairs [] [] s3 false := rfl
  obtain ⟨news, h1, h2, h3, h4, h5⟩ := mainLoop_spec cfg existing pairs [] [] s3 false hex
  simp only [List.nil_append] at h1
  refine ⟨by rw [hrm, h1, h2], ?_, ?_, ?_⟩
  · intro i r hi hri
    constructor
    · intro hrf
      by_contra hne
      exact hrest i r hi hne hri hrf
    · intro hiN
      subst hiN
      rw [hNr] at hri
      rw [← Option.some.inj hri]
      exact hf
  · obtain ⟨te, r, s3i, s3o, ha, hb, hc⟩ := h5 N hN
    have hreq : r = rN := by
      rw [hrm, h1] at hNr
      rw [hNr] at hb
      exact (Option.some.inj hb).symm
    subst hreq
    obtain ⟨vid, hev⟩ := isOk_exists_ok (hex te (mem_of_getElem_opt ha))
    obtain ⟨herr, hsome⟩ :=
      process_video_failed_error cfg te.1 te.2 s3i existing vid r s3o hev hc hf
    cases hmsg : pipeline_error_msg te.2 with
    | none => rw [hmsg] at hsome; simp at hsome
    | some msg => exact ⟨te, msg, ha, by rw [herr, hmsg], hmsg⟩
  · rw [hrm, h4]
    have hmem : rN ∈ news := by
      rw [hrm, h1] at hNr
      exact mem_of_getElem_opt hNr
    have hany : (news.any fun r => decide (r.status = Status.failed)) = true := by
      rw [List.any_eq_true]
      exact ⟨rN, hmem, by rw [hf]; rfl⟩
    rw [hany]
    rfl

/-- Witness for C7 at a concrete input: task 0 fails in the download stage,
task 1 succeeds. -/
theorem claim7_failure_isolation_witness :
    (runMain cfg0 [] (some [(task_a, env_download_fails), (task_b, env_all_ok)])
      s3_empty).results.length = 2 ∧
    (runMain cfg0 [] (some [(task_a, env_download_fails), (task_b, env_all_ok)])
      s3_empty).exitCode = 1 := by
  have h := claim7_failure_isolation cfg0 [] s3_empty
    [(task_a, env_download_fails), (task_b, env_all_ok)] 0
    ⟨task_a.url, task_a.title, "AAAAAAAAAAA", "chan", Status.failed, some "network down"⟩
    (by decide) (by decide) rfl rfl ?hrest
  · exact ⟨h.1, h.2.2.2⟩
  case hrest =>
    intro i r hi hne hri
    match i, hne with
    | 1, _ =>
      rw [show (runMain cfg0 [] (some [(task_a, env_download_fails), (task_b, env_all_ok)])
        s3_empty).results[1]? = some ⟨task_b.url, task_b.title, "BBBBBBBBBBB", "chan",
          Status.success, none⟩ from rfl] at hri
      rw [← Option.some.inj hri]
      decide
    | n + 2, _ => simp at hi

/-- Claim C9 (amended).  For a run whose tasks all yield video ids, the exit
code is 0 exactly when no task ended `failed`; and a missing required input
(tasks.json absent or setup failure) exits 1 before any task is processed,
with no results and no checkpoint written. -/
theorem claim9_exit_code (cfg : S3Config) (existing : List Result)
    (s3 : S3State) (pairs : List (Task × PipelineEnv))
    (hex : ∀ p ∈ pairs, (extract_video_id p.1.url).isOk = true) :
    ((runMain cfg existing (some pairs) s3).exitCode = 0 ↔
      ∀ r ∈ (runMain cfg existing (some pairs) s3).results,
        r.status ≠ Status.failed) ∧
    (runMain cfg existing none s3).exitCode = 1 ∧
    (runMain cfg existing none s3).results = [] ∧
    (runMain cfg existing none s3).checkpoints = [] := by
  have hrm : runMain cfg existing (some pairs) s3
      = mainLoop cfg existing pairs [] [] s3 false := rfl
  obtain ⟨news, h1, h2, h3, h4, h5⟩ := mainLoop_spec cfg existing pairs [] [] s3 false hex
  simp only [List.nil_append] at h1
  refine ⟨?_, rfl, rfl, rfl⟩
  rw [hrm, h4, h1, Bool.false_or]
  cases hany : news.any fun r => decide (r.status = Status.failed) with
  | true =>
    simp only [if_true]
    obtain ⟨r, hmem, hr⟩ := List.any_eq_true.mp hany
    constructor
    · intro h01
      exact absurd h01 (by omega)
    · intro hall
      exact absurd (of_decide_eq_true hr) (hall r hmem)
  | false =>
    simp only [Bool.false_eq_true, if_false]
    constructor
    · intro _ r hmem hrf
      have := List.any_eq_false.mp hany r hmem
      rw [hrf] at this
      simp at this
    · intro _
      trivial

/-- Witness for the amended C9 at a concrete input: one failed task out of
two gives exit code 1. -/
theorem claim9_exit_code_witness :
    ¬ ((runMain cfg0 [] (some [(task_a, env_download_fails), (task_b, env_all_ok)])
        s3_empty).exitCode = 0) := by
  have h := (claim9_exit_code cfg0 [] s3_empty
    [(task_a, env_download_fails), (task_b, env_all_ok)] (by decide)).1
  intro h0
  have hall := h.mp h0
  exact hall ⟨task_a.url, task_a.title, "AAAAAAAAAAA", "chan", Status.failed,
    some "network down"⟩ (by decide) rfl

/-- Counterexample to C9 as stated: a run containing one malformed-URL task
exits 1 while no task ended `failed` (the result list is empty), so
"exit code 0 iff no task ended failed" fails in the right-to-left
direction. -/
theorem claim9_counterexample :
    (runMain cfg0 [] (some [(task_bad, env_all_ok)]) s3_empty).exitCode = 1 ∧
    (runMain cfg0 [] (some [(task_bad, env_all_ok)]) s3_empty).results = [] ∧
    (∀ r ∈ (runMain cfg0 [] (some [(task_bad, env_all_ok)]) s3_empty).results,
      r.status ≠ Status.failed) := by
  refine ⟨rfl, rfl, ?_⟩
  intro r hr
  rw [show (runMain cfg0 [] (some [(task_bad, env_all_ok)]) s3_empty).results
    = ([] : List Result) from rfl] at hr
  exact absurd hr (List.not_mem_nil r)

/-- Result list [success, failed, skipped] from the spec's aggregate-status
example. -/
def res_sfs : List Result :=
  [⟨"u1", "t1", "v1", "c", Status.success, none⟩,
   ⟨"u2", "t2", "v2", "c", Status.failed, some "boom"⟩,
   ⟨"u3", "t3", "v3", "c", Status.skipped, none⟩]

/-- Result list [success, success] from the spec's aggregate-status
example. -/
def res_ss : List Result :=
  [⟨"u1", "t1", "v1", "c", Status.success, none⟩,
   ⟨"u2", "t2", "v2", "c", Status.success, none⟩]

/-- Claim C3.  `get_job_status` is a pure function of the result list:
it returns the counts by status, `progress = (success+failed+skipped)/total`,
and the overall status chain processing / completed / partial_failure /
pending; absent or empty results give pending with progress 0; and on the
spec's examples: [success, failed, skipped] has progress 1 and
partial_failure, [success, success] is completed with 2 tasks. -/
theorem claim3_job_status (jid : String) (rs : List Result) (h : rs ≠ []) :
    ((get_job_status jid (some rs)).total_tasks = rs.length ∧
     (get_job_status jid (some rs)).completed_tasks
       = rs.countP (fun r => decide (r.status = Status.success)) ∧
     (get_job_status jid (some rs)).failed_tasks
       = rs.countP (fun r => decide (r.status = Status.failed)) ∧
     (get_job_status jid (some rs)).skipped_tasks
       = rs.countP (fun r => decide (r.status = Status.skipped)) ∧
     (get_job_status jid (some rs)).processing_tasks
       = rs.countP (fun r => decide (r.status = Status.processing))) ∧
    (get_job_status jid (some rs)).progress
      = ((rs.countP (fun r => decide (r.status = Status.success))
          + rs.countP (fun r => decide (r.status = Status.failed))
          + rs.countP (fun r => decide (r.status = Status.skipped)) : Nat) : ℚ)
        / (rs.length : ℚ) ∧
    (get_job_status jid (some rs)).status
      = (if ∃ r ∈ rs, r.status = Status.processing then "processing"
         else if rs.countP (fun r => decide (r.status = Status.success))
             + rs.countP (fun r => decide (r.status = Status.skipped))
             = rs.length then "completed"
         else if ∃ r ∈ rs, r.status = Status.failed then "partial_failure"
         else "pending") ∧
    get_job_status jid none = ⟨jid, "pending", 0, 0, 0, 0, 0, 0⟩ ∧
    get_job_status jid (some []) = ⟨jid, "pending", 0, 0, 0, 0, 0, 0⟩ ∧
    (get_job_status jid (some res_sfs)).progress = 1 ∧
    (get_job_status jid (some res_sfs)).status = "partial_failure" ∧
    (get_job_status jid (some res_ss)).status = "completed" ∧
    (get_job_status jid (some res_ss)).total_tasks = 2 := by
  cases rs with
  | nil => exact absurd rfl h
  | cons a l =>
    have hproc : (∃ r ∈ a :: l, r.status = Status.processing)
        ↔ 0 < (a :: l).countP (fun r => decide (r.status = Status.processing)) := by
      rw [List.countP_pos_iff]
      simp
    have hfail : (∃ r ∈ a :: l, r.status = Status.failed)
        ↔ 0 < (a :: l).countP (fun r => decide (r.status = Status.failed)) := by
      rw [List.countP_pos_iff]
      simp
    refine ⟨⟨rfl, rfl, rfl, rfl, rfl⟩, ?_, ?_, rfl, rfl,
      by simp [get_job_status, res_sfs, List.countP_cons, List.countP_nil],
      rfl, rfl, rfl⟩
    · show (if 0 < (a :: l).length then _ else _) = _
      rw [if_pos (by simp)]
    · simp only [hproc, hfail]
      rfl

/-- Witness for C3 at a concrete input: the spec's three-element example
list. -/
theorem claim3_job_status_witness :
    (get_job_status "job-1" (some res_sfs)).progress = 1 ∧
    (get_job_status "job-1" (some res_sfs)).status = "partial_failure" ∧
    (get_job_status "job-1" (some res_ss)).status = "completed" :=
  ⟨(claim3_job_status "job-1" res_sfs (by decide)).2.2.2.2.2.1,
   (claim3_job_status "job-1" res_sfs (by decide)).2.2.2.2.2.2.1,
   (claim3_job_status "job-1" res_ss (by decide)).2.2.2.2.2.2.2.1⟩

lemma ends_with_slash_decomp (s : String) (h : ends_with_slash s = true) :
    ∃ q, s = q ++ "/" := by
  obtain ⟨l⟩ := s
  have hlast0 : (l.getLast? == some '/') = true := h
  have hlast : l.getLast? = some '/' := eq_of_beq hlast0
  have hne : l ≠ [] := by
    intro he
    subst he
    simp at hlast
  refine ⟨String.mk l.dropLast, ?_⟩
  have h2 : l.dropLast ++ [l.getLast hne] = l := List.dropLast_append_getLast hne
  have h3 : l.getLast hne = '/' := by
    have h4 : l.getLast? = some (l.getLast hne) := List.getLast?_eq_getLast l hne
    rw [h4] at hlast
    exact Option.some.inj hlast
  rw [h3] at h2
  conv_lhs => rw [← h2]
  rfl

lemma normalize_pfx_invariant (p : String) :
    normalize_pfx p = "" ∨ ends_with_slash (normalize_pfx p) = true := by
  unfold normalize_pfx
  split_ifs with hc
  · right
    have : (p ++ "/").data = p.data ++ ['/'] := String.data_append ..
    simp only [ends_with_slash, this, List.getLast?_concat]
    rfl
  · rw [Bool.and_eq_true, not_and_or] at hc
    rcases hc with hc | hc
    · left
      simp only [decide_eq_true_eq, ne_eq, Decidable.not_not] at hc
      exact hc
    · right
      simpa using hc

/-- Claim C10.  The constructed manager's stored prefix is either empty or
ends with '/' (a missing trailing slash is appended at construction), so in
every key the manager forms the prefix is separated from the job id by '/';
the four job-file keys all hang off the stored prefix, which no operation
mutates (all operations here are pure functions of the constructed
manager). -/
theorem claim10_prefix_invariant (bucket p job_id : String) :
    ((mk_manager bucket p).transcriber_pfx = "" ∨
      ends_with_slash (mk_manager bucket p).transcriber_pfx = true) ∧
    ((mk_manager bucket p).transcriber_pfx ≠ "" →
      ∃ q, (mk_manager bucket p).transcriber_pfx = q ++ "/" ∧
        tasks_key (mk_manager bucket p) job_id
          = (q ++ "/") ++ (job_id ++ "/tasks.json")) ∧
    tasks_key (mk_manager bucket p) job_id
      = (mk_manager bucket p).transcriber_pfx ++ job_id ++ "/tasks.json" ∧
    config_key (mk_manager bucket p) job_id
      = (mk_manager bucket p).transcriber_pfx ++ job_id ++ "/config.json" ∧
    resources_key (mk_manager bucket p) job_id
      = (mk_manager bucket p).transcriber_pfx ++ job_id ++ "/resources.json" ∧
    results_key (mk_manager bucket p) job_id
      = (mk_manager bucket p).transcriber_pfx ++ job_id ++ "/results.json" := by
  refine ⟨normalize_pfx_invariant p, ?_, rfl, rfl, rfl, rfl⟩
  intro hne
  rcases normalize_pfx_invariant p with hz | hs
  · exact absurd hz hne
  · obtain ⟨q, hq⟩ := ends_with_slash_decomp _ hs
    refine ⟨q, hq, ?_⟩
    have hq2 : (mk_manager bucket p).transcriber_pfx = q ++ "/" := hq
    show (mk_manager bucket p).transcriber_pfx ++ job_id ++ "/tasks.json" = _
    rw [hq2, String.append_assoc]

/-- Witness for C10 at a concrete input: prefix `jobs` (no trailing slash)
is stored as `jobs/` and the tasks key decomposes around the '/'. -/
theorem claim10_prefix_invariant_witness :
    ∃ q, (mk_manager "b" "jobs").transcriber_pfx = q ++ "/" ∧
      tasks_key (mk_manager "b" "jobs") "job-1"
        = (q ++ "/") ++ ("job-1" ++ "/tasks.json") :=
  (claim10_prefix_invariant "b" "jobs" "job-1").2.1 (by decide)

end VidBatch
